import Mathlib

/-!
Verification of the papis document module against its specification.

Shallow embedding of `src/papis/document.py` and the merge pipeline of
`src/papis/commands/update.py`.  Python dictionaries holding document
fields are embedded as functions `String → Option PyVal` (key lookup),
incoming foreign data dictionaries as association lists (to keep the
iteration order of `data.items()`), and Python exceptions as `Except`.
Ambient configuration (`papis.config.getstring`) is threaded through an
explicit `Config` record; a configuration key that is not set is `none`.
-/

namespace Papis

/-- An author record `{given, family}` as produced by
`split_authors_name` and consumed by `author_list_to_author`. -/
structure Author where
  given : String
  family : String
deriving DecidableEq

/-- Embedded Python values, as far as the papis document module consumes
them: strings, integers, lists, and lists of author records (the shape
of the `author_list` field).  Python `None` never appears as a stored
value in the modelled code paths; absence is `Option.none` at the
dictionary level. -/
inductive PyVal where
  | str : String → PyVal
  | int : Int → PyVal
  | list : List PyVal → PyVal
  | authors : List Author → PyVal

mutual

/-- Decidable equality on embedded values (hand-rolled: the nested
`List PyVal` constructor defeats the automatic derive handler). -/
def PyVal.decEq : (a b : PyVal) → Decidable (a = b)
  | .str a, .str b =>
    match String.decEq a b with
    | isTrue h => isTrue (by rw [h])
    | isFalse h => isFalse (fun hc => h (PyVal.str.inj hc))
  | .int a, .int b =>
    match Int.decEq a b with
    | isTrue h => isTrue (by rw [h])
    | isFalse h => isFalse (fun hc => h (PyVal.int.inj hc))
  | .list as, .list bs =>
    match PyVal.decEqList as bs with
    | isTrue h => isTrue (by rw [h])
    | isFalse h => isFalse (fun hc => h (PyVal.list.inj hc))
  | .authors as, .authors bs =>
    match List.hasDecEq as bs with
    | isTrue h => isTrue (by rw [h])
    | isFalse h => isFalse (fun hc => h (PyVal.authors.inj hc))
  | .str _, .int _ => isFalse (fun h => PyVal.noConfusion h)
  | .str _, .list _ => isFalse (fun h => PyVal.noConfusion h)
  | .str _, .authors _ => isFalse (fun h => PyVal.noConfusion h)
  | .int _, .str _ => isFalse (fun h => PyVal.noConfusion h)
  | .int _, .list _ => isFalse (fun h => PyVal.noConfusion h)
  | .int _, .authors _ => isFalse (fun h => PyVal.noConfusion h)
  | .list _, .str _ => isFalse (fun h => PyVal.noConfusion h)
  | .list _, .int _ => isFalse (fun h => PyVal.noConfusion h)
  | .list _, .authors _ => isFalse (fun h => PyVal.noConfusion h)
  | .authors _, .str _ => isFalse (fun h => PyVal.noConfusion h)
  | .authors _, .int _ => isFalse (fun h => PyVal.noConfusion h)
  | .authors _, .list _ => isFalse (fun h => PyVal.noConfusion h)

/-- Decidable equality on lists of embedded values. -/
def PyVal.decEqList : (as bs : List PyVal) → Decidable (as = bs)
  | [], [] => isTrue rfl
  | a :: as, b :: bs =>
    match PyVal.decEq a b, PyVal.decEqList as bs with
    | isTrue h1, isTrue h2 => isTrue (by rw [h1, h2])
    | isFalse h1, _ => isFalse (fun hc => h1 (List.head_eq_of_cons_eq hc))
    | _, isFalse h2 => isFalse (fun hc => h2 (List.tail_eq_of_cons_eq hc))
  | [], _ :: _ => isFalse (fun h => List.noConfusion h)
  | _ :: _, [] => isFalse (fun h => List.noConfusion h)

end

instance : DecidableEq PyVal := PyVal.decEq

/-- Decidable equality on `Except` results (core provides none). -/
instance {ε α : Type} [DecidableEq ε] [DecidableEq α] :
    DecidableEq (Except ε α) := fun a b =>
  match a, b with
  | .error e, .error f =>
    match decEq e f with
    | isTrue h => isTrue (by rw [h])
    | isFalse h => isFalse (fun hc => h (Except.error.inj hc))
  | .ok x, .ok y =>
    match decEq x y with
    | isTrue h => isTrue (by rw [h])
    | isFalse h => isFalse (fun hc => h (Except.ok.inj hc))
  | .error _, .ok _ => isFalse (fun hc => Except.noConfusion hc)
  | .ok _, .error _ => isFalse (fun hc => Except.noConfusion hc)

/-- Python truthiness (`if new_value:`) for the embedded values. -/
def PyVal.truthy : PyVal → Bool
  | .str s => s ≠ ""
  | .int n => n ≠ 0
  | .list xs => ¬ xs.isEmpty
  | .authors xs => ¬ xs.isEmpty

/-- A Python dictionary used for document fields and conversion results:
lookup by key.  `none` models an absent key. -/
abbrev PyDict := String → Option PyVal

/-- The empty dictionary. -/
def emptyData : PyDict := fun _ => none

/-- Embedding of `base.update(upd)` for dictionaries: keys of `upd` win. -/
def dictUpdate (base upd : PyDict) : PyDict := fun k =>
  match upd k with
  | some v => some v
  | none => base k

/-- Embedding of `d[k] = v` on a dictionary. -/
def dinsert (nd : PyDict) (k : String) (v : PyVal) : PyDict :=
  fun q => if q = k then some v else nd q

/-- Model of `papis.document.Document`: an in-memory key/value record bound to an
optional filesystem folder.  `_folder` is `none` for a document created
without a folder; `_info_file_path` defaults to the empty string. -/
structure Document where
  folder : Option String
  infoFilePath : String
  fields : PyDict

/-- Model of `Document.__getitem__` together with `Document.__missing__`
(`src/papis/document.py:257`): subscript access on an absent key
returns the empty string instead of raising `KeyError`. -/
def Document.getItem (d : Document) (k : String) : PyVal :=
  match d.fields k with
  | some v => v
  | none => .str ""

/-- Model of `os.path.join(a, b)` restricted to the two-argument form used by
`Document.get_files`: an absolute second component replaces the first,
otherwise the components are joined with a single separator. -/
def ospathJoin (a b : String) : String :=
  if b.startsWith "/" then b
  else if a = "" then b
  else if a.endsWith "/" then a ++ b
  else a ++ "/" ++ b

/-- The list comprehension `[os.path.join(folder, f) for f in files]` in
`Document.get_files`; a non-string entry makes `os.path.join` raise
`TypeError`, embedded as `Except.error`. -/
def joinAll (folder : String) : List PyVal → Except Unit (List String)
  | [] => .ok []
  | .str s :: rest => (joinAll folder rest).map (fun l => ospathJoin folder s :: l)
  | _ :: _ => .error ()

/-- Model of `Document.get_files` (`src/papis/document.py:306`): `[]` when the
folder is unset or the `files` field is absent; otherwise the `files`
value, normalized to a list, joined onto the folder. -/
def Document.getFiles (d : Document) : Except Unit (List String) :=
  match d.folder with
  | none => .ok []
  | some folder =>
    match d.fields "files" with
    | none => .ok []
    | some v =>
      match v with
      | .list xs => joinAll folder xs
      | x => joinAll folder [x]

/-- The filesystem as seen by `Document.load`: maps an info-file path to
`none` when `os.path.exists` is false, and otherwise to the outcome of
`papis.yaml.yaml_to_data` — either the parsed field data or a parse
error. -/
abbrev InfoFS := String → Option (Except Unit PyDict)

/-- Model of `Document.load` (`src/papis/document.py:333`): returns unchanged when
the info file path is unset or the file does not exist; on a parse error
the error is logged and the document is left untouched; otherwise the
parsed data is merged via `dict.update`. -/
def Document.load (fs : InfoFS) (d : Document) : Document :=
  if d.infoFilePath = "" then d
  else
    match fs d.infoFilePath with
    | none => d
    | some (.error _) => d
    | some (.ok data) => { d with fields := dictUpdate d.fields data }

/-- The persistent store written by `Document.save` through
`papis.yaml.data_to_yaml`: path to stored field data. -/
abbrev FileStore := String → Option PyDict

/-- Model of `papis.exceptions.DocumentFolderNotFound`, raised by
`papis.commands.update.run` when the document has no folder attached. -/
inductive UpdateError where
  | documentFolderNotFound
deriving DecidableEq

/-- Model of `papis.commands.update.run` (`src/papis/commands/update.py:59`):
raises `DocumentFolderNotFound` when the folder or the info file is
unset (Python falsiness: `None` or the empty string); otherwise applies
the update data to the document, optionally runs the doctor fixers
(external collaborator, threaded in as `fixErrors`), and saves the full
field mapping to the info file.  The git commit step is an external
collaborator and is not modelled. -/
def run (d : Document) (data : PyDict) (autoDoctor : Bool)
    (fixErrors : PyDict → PyDict) (fs : FileStore) :
    Except UpdateError (Document × FileStore) :=
  if d.folder = none ∨ d.folder = some "" ∨ d.infoFilePath = "" then
    .error .documentFolderNotFound
  else
    let fields := dictUpdate d.fields data
    let fields := if autoDoctor then fixErrors fields else fields
    .ok ({ d with fields := fields },
         fun p => if p = d.infoFilePath then some fields else fs p)

/-- The slice of the papis configuration reached by the key-conversion
engine: the `multiple-authors-separator` and `multiple-authors-format`
settings.  The format setting is a template applied to one author
record (`fmt.format(au=author)`), embedded as a function; an unset
setting is `none`. -/
structure Config where
  multipleAuthorsSeparator : Option String
  multipleAuthorsFormat : Option (Author → String)

/-- Model of `papis.document.author_list_to_author`
(`src/papis/document.py:146`): returns the empty string when
`author_list` is absent; otherwise requires both author-format settings
(raising a configuration error when either is unset, embedded as
`Except.error`) and joins the formatted author records with the
separator.  A value under `author_list` that is not a list of author
records makes the Python comprehension raise, also `Except.error`. -/
def author_list_to_author (cfg : Config) (data : PyDict) : Except Unit String :=
  match data "author_list" with
  | none => .ok ""
  | some v =>
    match cfg.multipleAuthorsSeparator, cfg.multipleAuthorsFormat with
    | some sep, some fmt =>
      match v with
      | .authors xs => .ok (String.intercalate sep (xs.map fmt))
      | _ => .error ()
    | _, _ => .error ()

/-- A `KeyConversion` rule: optional target key (`None` or the empty
string fall back to the foreign key, through Python's `get("key") or
foreign_key`) and an optional transform whose exceptions are embedded
as `Except.error`. -/
structure KeyConversion where
  key : Option String
  action : Option (PyVal → Except Unit PyVal)

/-- A `KeyConversionPair`: a foreign key together with the rules applied
to its value. -/
structure KeyConversionPair where
  foreign_key : String
  rules : List KeyConversion

/-- Incoming foreign data, ordered as `data.items()` iterates it. -/
abbrev DataDict := List (String × PyVal)

/-- Embedding of `foreign_key in data` / `data[foreign_key]` on the incoming data. -/
def dataLookup (data : DataDict) (k : String) : Option PyVal :=
  (data.find? (fun kv => kv.1 == k)).map (fun kv => kv.2)

/-- Model of `str.strip()`: drop whitespace from both ends (structural over the
character list so that the kernel can evaluate it; Python strips a
slightly larger whitespace class, which no claim exercises). -/
def pyStrip (s : String) : String :=
  String.mk (((s.data.dropWhile Char.isWhitespace).reverse.dropWhile
    Char.isWhitespace).reverse)

/-- Application of `str.strip()` to string values, identity elsewhere
(the `isinstance(new_value, str)` branch). -/
def stripIfStr : PyVal → PyVal
  | .str s => .str (pyStrip s)
  | v => v

/-- One iteration of the inner rule loop of `keyconversion_to_data`
(`src/papis/document.py:113`): compute the target key, apply the
transform — an exception is caught, logged at debug level, and treated
as no value — strip string results, and write the value only when it is
truthy. -/
def applyRule (dataValue : PyVal) (foreignKey : String)
    (nd : PyDict) (conv : KeyConversion) : PyDict :=
  let papisKey := match conv.key with
    | some s => if s = "" then foreignKey else s
    | none => foreignKey
  let newValue : Option PyVal := match conv.action with
    | some act =>
      match act dataValue with
      | .ok v => some v
      | .error _ => none
    | none => some dataValue
  match newValue with
  | none => nd
  | some v =>
    let v := stripIfStr v
    if v.truthy then dinsert nd papisKey v else nd

/-- One iteration of the outer conversion loop: a pair whose foreign key
is absent from the data is skipped, otherwise every rule is applied to
the foreign value in order. -/
def applyPair (data : DataDict) (nd : PyDict) (p : KeyConversionPair) : PyDict :=
  match dataLookup data p.foreign_key with
  | none => nd
  | some v => p.rules.foldl (applyRule v p.foreign_key) nd

/-- The `keep_unknown_keys` loop: data keys not claimed by any
conversion's foreign key are copied through unchanged. -/
def addUnknown (conversions : List KeyConversionPair) (data : DataDict)
    (nd : PyDict) : PyDict :=
  data.foldl
    (fun nd kv =>
      if conversions.any (fun c => c.foreign_key == kv.1) then nd
      else dinsert nd kv.1 kv.2)
    nd

/-- Model of `papis.document.keyconversion_to_data` (`src/papis/document.py:59`):
fold all conversion pairs over an empty result, optionally copy unknown
keys through, and finally derive `author` from `author_list` when the
latter is present — a step that can raise (configuration error in
`author_list_to_author`), which is the only way this function can fail. -/
def keyconversion_to_data (cfg : Config) (conversions : List KeyConversionPair)
    (data : DataDict) (keepUnknownKeys : Bool) : Except Unit PyDict :=
  let nd := conversions.foldl (applyPair data) emptyData
  let nd := if keepUnknownKeys then addUnknown conversions data nd else nd
  if (nd "author_list").isSome then
    match author_list_to_author cfg nd with
    | .ok s => .ok (dinsert nd "author" (.str s))
    | .error e => .error e
  else
    .ok nd

/-- The `del imported.data["ref"]` step of `papis.commands.update.cli`
(`src/papis/commands/update.py:168`): a `ref` key contributed by an
importer is removed before the overlay.  Python deletes the key only
when present; as a mapping this is the same as unconditional removal. -/
def deleteRef (imp : PyDict) : PyDict := fun k => if k = "ref" then none else imp k

/-- The merge performed by `papis.commands.update.cli`
(`src/papis/commands/update.py:137`): starting from an empty importer
context, overlay the document's own fields, then the user-supplied
`--set` overrides, then the collected importer data with its `ref` key
stripped; later overlays win on key collision.  The override values
(`process_set_tuples`) and the importer collection itself are external
to this module and enter as already-evaluated mappings. -/
def buildUpdateData (docFields overrides imported : PyDict) : PyDict :=
  dictUpdate (dictUpdate (dictUpdate emptyData docFields) overrides) (deleteRef imported)

/-- Embedding of `", ".join(...)` as used by Python's list `repr`. -/
def commaJoin : List String → String
  | [] => ""
  | [x] => x
  | x :: xs => x ++ ", " ++ commaJoin xs

/-- A single-quote character, used by Python `repr` of strings. -/
def quoteMark : String := (Char.ofNat 39).toString

/-- Python `repr` of an author record dictionary (key order as built by
`split_authors_name`; quote escaping is not modelled). -/
def authorRepr (a : Author) : String :=
  "\x7b" ++ quoteMark ++ "family" ++ quoteMark ++ ": " ++ quoteMark ++ a.family
    ++ quoteMark ++ ", " ++ quoteMark ++ "given" ++ quoteMark ++ ": " ++ quoteMark
    ++ a.given ++ quoteMark ++ "\x7d"

/-- Python `repr` on embedded values (strings are single-quoted without
escaping — the claims only ever stringify scalars). -/
def pyRepr : PyVal → String
  | .str s => quoteMark ++ s ++ quoteMark
  | .int n => toString n
  | .list xs => "[" ++ commaJoin (xs.attach.map (fun x => pyRepr x.1)) ++ "]"
  | .authors xs => "[" ++ commaJoin (xs.map authorRepr) ++ "]"
decreasing_by
  have h := List.sizeOf_lt_of_mem x.2
  simp only [PyVal.list.sizeOf_spec]
  omega

/-- Python `str` on embedded values: identity on strings, `repr`
otherwise. -/
def pyStr : PyVal → String
  | .str s => s
  | .int n => toString n
  | v => pyRepr v

/-- Strict code-point lexicographic comparison of character lists
(structural, so the kernel can evaluate it; agrees with both Python's
string `<` and Lean's `String` order). -/
def charListLt : List Char → List Char → Bool
  | _, [] => false
  | [], _ :: _ => true
  | a :: as, b :: bs =>
    if a.toNat < b.toNat then true
    else if b.toNat < a.toNat then false
    else charListLt as bs

/-- Python string `<=` (code-point lexicographic), as a Boolean. -/
def strLe (a b : String) : Bool := !(charListLt b.data a.data)

/-- Insertion into a sorted list: `x` goes in front of the first element
it compares `le` to, so earlier input stays in front of equal elements. -/
def insertLe (le : α → α → Bool) (x : α) : List α → List α
  | [] => [x]
  | y :: ys => if le x y then x :: y :: ys else y :: insertLe le x ys

/-- Python's `sorted` with a total preorder `le`: a stable ascending
sort (insertion sort; CPython's timsort agrees on every total
preorder because both are stable). -/
def sortStable (le : α → α → Bool) (l : List α) : List α :=
  l.foldr (insertLe le) []

/-- Left-aligned padding `"{:{}}".format(s, w)`: pad with spaces up to
width `w`, never truncate. -/
def padTo (s : String) (w : Nat) : String :=
  s ++ String.mk (List.replicate (w - s.length) ' ')

/-- Embedding of `"\n".join(lines)`. -/
def joinLines : List String → String
  | [] => ""
  | [x] => x
  | x :: xs => x ++ "\n" ++ joinLines xs

/-- Model of `papis.document.dump` (`src/papis/document.py:383`): one
`key: value` line per field, sorted by key, the `key:` field padded to
`(L / 4 + 2) * 4 - 1` characters where `L` is the longest key length.
`max` over an empty document raises `ValueError`, embedded as `none`.
The document is the assoc-list view of the fields (Python sorts the
`(key, value)` items; with the unique keys of a dictionary that is a
sort by key). -/
def dump (doc : DataDict) : Option String :=
  if doc.isEmpty then none
  else
    let width := ((doc.foldl (fun m kv => max m kv.1.length) 0) / 4 + 2) * 4 - 1
    some (joinLines ((sortStable (fun a b => strLe a.1 b.1) doc).map
      (fun kv => padTo (kv.1 ++ ":") width ++ pyStr kv.2)))

/-- Modelled from the spec wording, for comparison with `dump`: the same
rendering but with the key field padded to "a column width equal to the
next multiple of 4 above the longest key length". -/
def dumpSpecWidth (doc : DataDict) : Option String :=
  if doc.isEmpty then none
  else
    let width := ((doc.foldl (fun m kv => max m kv.1.length) 0) / 4 + 1) * 4
    some (joinLines ((sortStable (fun a b => strLe a.1 b.1) doc).map
      (fun kv => padTo (kv.1 ++ ":") width ++ pyStr kv.2)))

/-- A `datetime.datetime` as far as `papis.document.sort` compares
them: six calendar fields, ordered lexicographically (chronological
order coincides with field-lexicographic order under a fixed naive
timezone). -/
structure DateTime where
  year : Nat
  month : Nat
  day : Nat
  hour : Nat
  minute : Nat
  second : Nat
deriving DecidableEq

/-- Value of `datetime.fromtimestamp(0)`, the default date in the sort key.  The
Python value is the local-time epoch; only its role as a fixed constant
matters, never its relation to parsed timestamps of real documents. -/
def epoch : DateTime := ⟨1970, 1, 1, 0, 0, 0⟩

/-- Strict chronological comparison of two `DateTime`s. -/
def dtLt (a b : DateTime) : Bool :=
  if a.year < b.year then true else if b.year < a.year then false
  else if a.month < b.month then true else if b.month < a.month then false
  else if a.day < b.day then true else if b.day < a.day then false
  else if a.hour < b.hour then true else if b.hour < a.hour then false
  else if a.minute < b.minute then true else if b.minute < a.minute then false
  else decide (a.second < b.second)

/-- No two adjacent underscores (part of Python's digit-grouping rule
for `int()` literals). -/
def noDoubleUnderscore : List Char → Bool
  | a :: b :: rest => !(a == '_' && b == '_') && noDoubleUnderscore (b :: rest)
  | _ => true

/-- Digit-sequence validity for Python `int()`: non-empty, only digits
and single interior underscores (ASCII digits; Python additionally
accepts non-ASCII decimal digits, which no claim exercises). -/
def validIntDigits (cs : List Char) : Bool :=
  !cs.isEmpty
    && cs.all (fun c => c.isDigit || c == '_')
    && cs.head?.any (fun c => c.isDigit)
    && cs.getLast?.any (fun c => c.isDigit)
    && noDoubleUnderscore cs

/-- Base-10 value of a digit sequence, skipping grouping underscores. -/
def digitsToNat (cs : List Char) : Nat :=
  cs.foldl (fun a c => if c = '_' then a else a * 10 + (c.toNat - 48)) 0

/-- Python `int(s)` on a string: strip whitespace, optional sign,
grouped decimal digits; `ValueError` is `none`. -/
def parseIntPy (s : String) : Option Int :=
  match (pyStrip s).toList with
  | [] => none
  | c :: rest =>
    let ds := if c = '-' ∨ c = '+' then rest else c :: rest
    if validIntDigits ds then
      some (if c = '-' then -(digitsToNat ds : Int) else (digitsToNat ds : Int))
    else none

/-- One all-digit field of a timestamp. -/
def parseNatField (s : String) : Option Nat :=
  if s.length > 0 ∧ s.toList.all Char.isDigit then some (digitsToNat s.toList)
  else none

/-- Leap years of the proleptic Gregorian calendar. -/
def isLeapYear (y : Nat) : Bool := (y % 4 == 0 && y % 100 != 0) || y % 400 == 0

/-- Days in a month, used by `datetime` to validate the day field. -/
def daysInMonth (y m : Nat) : Nat :=
  if m = 2 then (if isLeapYear y then 29 else 28)
  else if m = 4 ∨ m = 6 ∨ m = 9 ∨ m = 11 then 30
  else 31

/-- Model of `datetime.strptime(s, papis.strings.time_format)` with the fixed
format `%Y-%m-%d-%H:%M:%S` (`src/papis/strings.py`): four-digit year,
one- or two-digit remaining fields, ranges validated as `datetime`
does; `ValueError` is `none`. -/
def strptimePapis (s : String) : Option DateTime :=
  match s.splitOn "-" with
  | [ys, ms, ds, rest] =>
    match rest.splitOn ":" with
    | [hs, mis, ss] =>
      match parseNatField ys, parseNatField ms, parseNatField ds,
            parseNatField hs, parseNatField mis, parseNatField ss with
      | some y, some mo, some d, some h, some mi, some sec =>
        if ys.length = 4 ∧ ms.length ≤ 2 ∧ ds.length ≤ 2 ∧ hs.length ≤ 2
            ∧ mis.length ≤ 2 ∧ ss.length ≤ 2
            ∧ 1 ≤ mo ∧ mo ≤ 12 ∧ 1 ≤ d ∧ d ≤ daysInMonth y mo
            ∧ h ≤ 23 ∧ mi ≤ 59 ∧ sec ≤ 59 then
          some ⟨y, mo, d, h, mi, sec⟩
        else none
      | _, _, _, _, _, _ => none
    | _ => none
  | _ => none

/-- The 4-tuple `(priority, date, int_value, str_value)` built by
`document_sort_key` inside `papis.document.sort`.  The priority is an
`Int` because `reverse=True` negates the `_SortPriority` ordinal. -/
structure SKey where
  p : Int
  date : DateTime
  iv : Int
  sv : String
deriving DecidableEq

/-- Lexicographic `<=` on the `(date, int_value, str_value)` tail of a
sort key (Python tuple comparison after the priority field). -/
def skeyRestLe (a b : SKey) : Bool :=
  if dtLt a.date b.date then true
  else if dtLt b.date a.date then false
  else if a.iv < b.iv then true
  else if b.iv < a.iv then false
  else strLe a.sv b.sv

/-- Python tuple `<=` on full sort keys: priority first, then the
`(date, int_value, str_value)` tail. -/
def skeyLe (a b : SKey) : Bool :=
  if a.p < b.p then true
  else if b.p < a.p then false
  else skeyRestLe a b

/-- A document as `sort` reads it: the assoc-list view of its field
mapping, accessed through `doc.get(key)`. -/
abbrev Doc := DataDict

/-- Model of `document_sort_key` inside `papis.document.sort`
(`src/papis/document.py:487`): rank the value under `key` as
Date(0) < Int(1) < Other(2) < Missing(3), populate the matching tuple
component, keep the defaults `(fromtimestamp(0), 0, "")` elsewhere, and
negate the priority ordinal when `reverse` is set.  For
`key = "time-added"` a failed timestamp parse leaves the priority at
Missing (the `suppress(ValueError)` block assigns neither field). -/
def documentSortKey (key : String) (reverse : Bool) (doc : Doc) : SKey :=
  let k : SKey :=
    match dataLookup doc key with
    | none => ⟨3, epoch, 0, ""⟩
    | some value =>
      let sv := pyStr value
      if key = "time-added" then
        match strptimePapis sv with
        | some date => ⟨0, date, 0, sv⟩
        | none => ⟨3, epoch, 0, sv⟩
      else
        match parseIntPy sv with
        | some n => ⟨1, epoch, n, sv⟩
        | none => ⟨2, epoch, 0, sv⟩
  { k with p := if reverse then -k.p else k.p }

/-- Model of `papis.document.sort` (`src/papis/document.py:467`):
`sorted(docs, key=document_sort_key, reverse=reverse)` — a stable sort,
descending when `reverse` is set, on the sort key whose priority is
negated when `reverse` is set.  A stable descending sort places `a`
before `b` exactly when `key b <= key a`. -/
def sortDocs (docs : List Doc) (key : String) (reverse : Bool) : List Doc :=
  sortStable
    (fun a b =>
      if reverse then
        skeyLe (documentSortKey key reverse b) (documentSortKey key reverse a)
      else
        skeyLe (documentSortKey key reverse a) (documentSortKey key reverse b))
    docs

/-- The order that `sort` actually realises when `reverse=True`:
ascending in the priority category of the plain (non-negated) sort key,
and, within one category, descending in the `(date, int_value,
str_value)` tail — the negated priority and the reversed comparison
cancel on the priority field and compose on the tail. -/
def leReverseActual (key : String) (a b : Doc) : Bool :=
  if (documentSortKey key false a).p < (documentSortKey key false b).p then true
  else if (documentSortKey key false b).p < (documentSortKey key false a).p then false
  else skeyRestLe (documentSortKey key false b) (documentSortKey key false a)

/-! Helper lemmas shared by the claim theorems. -/

/-- Evaluating `joinAll` over a list of strings joins every entry. -/
theorem joinAll_map_str (fo : String) (ss : List String) :
    joinAll fo (ss.map PyVal.str) = .ok (ss.map (ospathJoin fo)) := by
  induction ss with
  | nil => rfl
  | cons s ss ih => simp [joinAll, ih, Except.map]

/-! Claim theorems. -/

/-- C9: for every `Document` and every key not present in its fields,
subscript access yields the empty string rather than raising an
error. -/
theorem missing_key_yields_empty_string
    (d : Document) (k : String) (h : d.fields k = none) :
    d.getItem k = .str "" := by
  simp [Document.getItem, h]

/-- Witness for C9 at a concrete document and key. -/
theorem missing_key_yields_empty_string_witness :
    (Document.mk none "" emptyData).fields "title" = none
    ∧ (Document.mk none "" emptyData).getItem "title" = .str "" :=
  ⟨rfl, missing_key_yields_empty_string (Document.mk none "" emptyData) "title" rfl⟩

/-- C8: `get_files()` returns the empty list when the folder is unset
(regardless of the `files` field) or the `files` field is absent, and
otherwise normalizes the `files` value — a scalar becomes a
single-element list — and joins each entry onto the folder. -/
theorem get_files_normalization (d : Document) :
    (d.folder = none → d.getFiles = .ok [])
    ∧ (d.fields "files" = none → d.getFiles = .ok [])
    ∧ (∀ (fo s : String), d.folder = some fo → d.fields "files" = some (.str s) →
        d.getFiles = .ok [ospathJoin fo s])
    ∧ (∀ (fo : String) (ss : List String), d.folder = some fo →
        d.fields "files" = some (.list (ss.map PyVal.str)) →
        d.getFiles = .ok (ss.map (ospathJoin fo))) := by
  refine ⟨?_, ?_, ?_, ?_⟩
  · intro h
    simp [Document.getFiles, h]
  · intro h
    cases hf : d.folder with
    | none => simp [Document.getFiles, hf]
    | some fo => simp [Document.getFiles, hf, h]
  · intro fo s hfo hfi
    simp [Document.getFiles, hfo, hfi, joinAll, Except.map]
  · intro fo ss hfo hfi
    simp [Document.getFiles, hfo, hfi, joinAll_map_str]

/-- Witness for C8: a folderless document with a `files` value still
yields no files, and a scalar `files` value is joined as one entry. -/
theorem get_files_normalization_witness :
    (Document.mk none "" (fun _ => some (PyVal.str "a.pdf"))).getFiles = .ok []
    ∧ (Document.mk (some "/lib/doc") "info.yaml"
          (fun k => if k = "files" then some (PyVal.str "a.pdf") else none)).getFiles
        = .ok [ospathJoin "/lib/doc" "a.pdf"] :=
  ⟨(get_files_normalization _).1 rfl,
   (get_files_normalization _).2.2.1 "/lib/doc" "a.pdf" rfl (by decide)⟩

/-- C5: `load()` is a no-op when the record file does not exist, and on
a parse failure it logs and leaves the document exactly as it was — in
this embedding `load` is total, so no exception reaches the caller. -/
theorem load_degrades_to_noop (fs : InfoFS) (d : Document) :
    (fs d.infoFilePath = none → Document.load fs d = d)
    ∧ (∀ e, fs d.infoFilePath = some (.error e) → Document.load fs d = d) := by
  constructor
  · intro h
    by_cases hp : d.infoFilePath = ""
    · simp [Document.load, hp]
    · simp [Document.load, hp, h]
  · intro e h
    by_cases hp : d.infoFilePath = ""
    · simp [Document.load, hp]
    · simp [Document.load, hp, h]

/-- Witness for C5: a missing record file and a malformed record file,
each leaving a concrete document unchanged. -/
theorem load_degrades_to_noop_witness :
    Document.load (fun _ => none) (Document.mk none "info.yaml" emptyData)
        = Document.mk none "info.yaml" emptyData
    ∧ Document.load (fun _ => some (.error ())) (Document.mk none "info.yaml" emptyData)
        = Document.mk none "info.yaml" emptyData :=
  ⟨(load_degrades_to_noop (fun _ => none) (Document.mk none "info.yaml" emptyData)).1 rfl,
   (load_degrades_to_noop (fun _ => some (.error ()))
      (Document.mk none "info.yaml" emptyData)).2 () rfl⟩

/-- C7: the update pipeline's `run` on a document with no folder
attached fails with `DocumentFolderNotFound`; the error is raised
before the update data is applied, so no updated document and no
filesystem write is produced. -/
theorem run_without_folder_fails (d : Document) (data : PyDict)
    (autoDoctor : Bool) (fix : PyDict → PyDict) (fs : FileStore)
    (h : d.folder = none) :
    run d data autoDoctor fix fs = .error .documentFolderNotFound := by
  simp [run, h]

/-- Witness for C7 at a concrete folderless document. -/
theorem run_without_folder_fails_witness :
    run (Document.mk none "" emptyData) emptyData false id (fun _ => none)
      = .error .documentFolderNotFound :=
  run_without_folder_fails (Document.mk none "" emptyData) emptyData false id
    (fun _ => none) rfl

/-- C2: the merge pipeline overlays document fields, then user
overrides, then importer data, later overlays winning; with fields
`tags = "a"`, override `tags = "b"`, importer `tags = "c"` the merged
data carries `tags = "c"`, and the importer's `ref` key is stripped so
the document's own `ref` survives both in the merged data and in the
updated document fields. -/
theorem merge_precedence_and_ref_stripping (doc ov imp : PyDict)
    (h1 : doc "tags" = some (.str "a")) (h2 : ov "tags" = some (.str "b"))
    (h3 : imp "tags" = some (.str "c")) (h4 : ov "ref" = none) :
    buildUpdateData doc ov imp "tags" = some (.str "c")
    ∧ buildUpdateData doc ov imp "ref" = doc "ref"
    ∧ dictUpdate doc (buildUpdateData doc ov imp) "ref" = doc "ref" := by
  have href : buildUpdateData doc ov imp "ref" = doc "ref" := by
    simp only [buildUpdateData, dictUpdate, deleteRef, emptyData, if_pos rfl, h4]
    cases doc "ref" <;> simp
  refine ⟨?_, href, ?_⟩
  · simp only [buildUpdateData, dictUpdate, deleteRef, h3]
    simp
  · simp only [dictUpdate, href]
    cases doc "ref" <;> simp

/-- Witness for C2 at concrete field, override, and importer
dictionaries, with the importer also contributing a forbidden `ref`. -/
theorem merge_precedence_and_ref_stripping_witness :
    buildUpdateData
        (fun k => if k = "tags" then some (.str "a")
                  else if k = "ref" then some (.str "r2024") else none)
        (fun k => if k = "tags" then some (.str "b") else none)
        (fun k => if k = "tags" then some (.str "c")
                  else if k = "ref" then some (.str "X") else none)
        "tags" = some (.str "c")
    ∧ buildUpdateData
        (fun k => if k = "tags" then some (.str "a")
                  else if k = "ref" then some (.str "r2024") else none)
        (fun k => if k = "tags" then some (.str "b") else none)
        (fun k => if k = "tags" then some (.str "c")
                  else if k = "ref" then some (.str "X") else none)
        "ref" = some (.str "r2024") := by
  have h := merge_precedence_and_ref_stripping
    (fun k => if k = "tags" then some (.str "a")
              else if k = "ref" then some (.str "r2024") else none)
    (fun k => if k = "tags" then some (.str "b") else none)
    (fun k => if k = "tags" then some (.str "c")
              else if k = "ref" then some (.str "X") else none)
    (by decide) (by decide) (by decide) (by decide)
  exact ⟨h.1, h.2.1⟩

/-- Applying a rule whose transform raises leaves the partial result
unchanged: the exception is caught and the rule writes nothing. -/
theorem applyRule_failing_action (v : PyVal) (fk : String) (nd : PyDict)
    (tk : Option String) (act : PyVal → Except Unit PyVal)
    (hfail : ∀ w, act w = .error ()) :
    applyRule v fk nd (KeyConversion.mk tk (some act)) = nd := by
  simp [applyRule, hfail v]

/-- Folding the rules of one pair skips a rule whose transform always
raises. -/
theorem foldl_rules_failing (v : PyVal) (fk : String) (nd : PyDict)
    (rules1 rules2 : List KeyConversion) (tk : Option String)
    (act : PyVal → Except Unit PyVal) (hfail : ∀ w, act w = .error ()) :
    (rules1 ++ KeyConversion.mk tk (some act) :: rules2).foldl (applyRule v fk) nd
      = (rules1 ++ rules2).foldl (applyRule v fk) nd := by
  rw [List.foldl_append, List.foldl_append, List.foldl_cons,
      applyRule_failing_action v fk _ tk act hfail]

/-- A conversion pair behaves as if a rule whose transform always raises
were not there. -/
theorem applyPair_failing (data : DataDict) (nd : PyDict) (fk : String)
    (rules1 rules2 : List KeyConversion) (tk : Option String)
    (act : PyVal → Except Unit PyVal) (hfail : ∀ w, act w = .error ()) :
    applyPair data nd (KeyConversionPair.mk fk (rules1 ++ KeyConversion.mk tk (some act) :: rules2))
      = applyPair data nd (KeyConversionPair.mk fk (rules1 ++ rules2)) := by
  simp only [applyPair]
  cases h : dataLookup data fk with
  | none => rfl
  | some v => exact foldl_rules_failing v fk nd rules1 rules2 tk act hfail

/-- C3: a conversion rule whose transform raises on the source value is
caught inside `keyconversion_to_data` and treated as producing no
value: the whole conversion returns exactly what it returns with that
rule removed — no exception propagates from the transform, the rule's
target key is only ever written by other rules or unknown-key copying,
and every other rule and key is converted as before. -/
theorem transform_error_caught_locally (cfg : Config) (data : DataDict)
    (keep : Bool) (pre post : List KeyConversionPair) (fk : String)
    (rules1 rules2 : List KeyConversion) (tk : Option String)
    (act : PyVal → Except Unit PyVal) (hfail : ∀ w, act w = .error ()) :
    keyconversion_to_data cfg
        (pre ++ KeyConversionPair.mk fk (rules1 ++ KeyConversion.mk tk (some act) :: rules2) :: post)
        data keep
      = keyconversion_to_data cfg
          (pre ++ KeyConversionPair.mk fk (rules1 ++ rules2) :: post) data keep := by
  have hnd : (pre ++ KeyConversionPair.mk fk (rules1 ++ KeyConversion.mk tk (some act) :: rules2) :: post).foldl
        (applyPair data) emptyData
      = (pre ++ KeyConversionPair.mk fk (rules1 ++ rules2) :: post).foldl
          (applyPair data) emptyData := by
    rw [List.foldl_append, List.foldl_append, List.foldl_cons, List.foldl_cons,
        applyPair_failing data _ fk rules1 rules2 tk act hfail]
  have haddU : ∀ nd : PyDict,
      addUnknown (pre ++ KeyConversionPair.mk fk (rules1 ++ KeyConversion.mk tk (some act) :: rules2) :: post) data nd
        = addUnknown (pre ++ KeyConversionPair.mk fk (rules1 ++ rules2) :: post) data nd := by
    intro nd
    unfold addUnknown
    congr 1
    funext nd kv
    simp [List.any_append]
  simp only [keyconversion_to_data, hnd, haddU]

/-- Witness for C3: a single always-raising rule converts like no rule
at all, and its target key is absent from the result. -/
theorem transform_error_caught_locally_witness :
    keyconversion_to_data (Config.mk none none)
        [KeyConversionPair.mk "doi" [KeyConversion.mk none (some (fun _ => .error ()))]]
        [("doi", PyVal.str "10.1103")] false
      = keyconversion_to_data (Config.mk none none)
          [KeyConversionPair.mk "doi" []] [("doi", PyVal.str "10.1103")] false
    ∧ (keyconversion_to_data (Config.mk none none)
          [KeyConversionPair.mk "doi" []] [("doi", PyVal.str "10.1103")] false).map
        (fun nd => nd "doi") = .ok none :=
  ⟨transform_error_caught_locally (Config.mk none none) [("doi", PyVal.str "10.1103")]
      false [] [] "doi" [] [] none (fun _ => .error ()) (fun _ => rfl),
   rfl⟩

/-- The author post-processing step of `keyconversion_to_data`: a
successful result that carries an `author_list` carries the joined
`author` string. -/
theorem postprocess_author_of_result (cfg : Config) (nd res : PyDict)
    (sep : String) (fmt : Author → String) (xs : List Author)
    (hsep : cfg.multipleAuthorsSeparator = some sep)
    (hfmt : cfg.multipleAuthorsFormat = some fmt)
    (hres : (if (nd "author_list").isSome then
               match author_list_to_author cfg nd with
               | .ok s => Except.ok (dinsert nd "author" (.str s))
               | .error e => .error e
             else .ok nd) = .ok res)
    (hal : res "author_list" = some (.authors xs)) :
    res "author" = some (.str (String.intercalate sep (xs.map fmt))) := by
  by_cases h : (nd "author_list").isSome
  · rw [if_pos h] at hres
    cases hv : nd "author_list" with
    | none => rw [hv] at h; simp at h
    | some v =>
      unfold author_list_to_author at hres
      rw [hv, hsep, hfmt] at hres
      cases v with
      | authors ys =>
        simp only [] at hres
        injection hres with hres
        subst hres
        simp only [dinsert] at hal
        rw [if_neg (by decide), hv] at hal
        injection hal with hal
        injection hal with hal
        subst hal
        simp [dinsert]
      | str s => exact absurd hres (by simp)
      | int n => exact absurd hres (by simp)
      | list l => exact absurd hres (by simp)
  · rw [if_neg h] at hres
    injection hres with hres
    subst hres
    rw [hal] at h
    simp at h

/-- C4: whenever the result of `keyconversion_to_data` contains an
`author_list`, its `author` entry equals the configured per-author
format applied to each record and joined with the configured separator,
overriding any `author` written by the conversion rules. -/
theorem author_list_overrides_author (cfg : Config)
    (convs : List KeyConversionPair) (data : DataDict) (keep : Bool)
    (sep : String) (fmt : Author → String) (xs : List Author)
    (hsep : cfg.multipleAuthorsSeparator = some sep)
    (hfmt : cfg.multipleAuthorsFormat = some fmt)
    (hal : (keyconversion_to_data cfg convs data keep).map (fun nd => nd "author_list")
            = .ok (some (.authors xs))) :
    (keyconversion_to_data cfg convs data keep).map (fun nd => nd "author")
      = .ok (some (.str (String.intercalate sep (xs.map fmt)))) := by
  cases hE : keyconversion_to_data cfg convs data keep with
  | error e => rw [hE] at hal; simp [Except.map] at hal
  | ok res =>
    rw [hE] at hal
    simp only [Except.map] at hal ⊢
    injection hal with hal
    simp only [keyconversion_to_data] at hE
    rw [postprocess_author_of_result cfg _ res sep fmt xs hsep hfmt hE hal]

/-- Witness for C4: a conversion that produces both an `author_list` and
a rule-written `author`; the joined author list wins, reproducing the
`author_list_to_author` doctest output. -/
theorem author_list_overrides_author_witness :
    (keyconversion_to_data
        (Config.mk (some " and ") (some (fun a => a.family ++ ", " ++ a.given)))
        [KeyConversionPair.mk "al" [KeyConversion.mk (some "author_list") none],
         KeyConversionPair.mk "a" [KeyConversion.mk (some "author") none]]
        [("al", PyVal.authors [Author.mk "Some" "Author", Author.mk "Other" "Author"]),
         ("a", PyVal.str "rule-author")] false).map (fun nd => nd "author")
      = .ok (some (.str "Author, Some and Author, Other")) := by
  have h := author_list_overrides_author
    (Config.mk (some " and ") (some (fun a => a.family ++ ", " ++ a.given)))
    [KeyConversionPair.mk "al" [KeyConversion.mk (some "author_list") none],
     KeyConversionPair.mk "a" [KeyConversion.mk (some "author") none]]
    [("al", PyVal.authors [Author.mk "Some" "Author", Author.mk "Other" "Author"]),
     ("a", PyVal.str "rule-author")] false
    " and " (fun a => a.family ++ ", " ++ a.given)
    [Author.mk "Some" "Author", Author.mk "Other" "Author"]
    rfl rfl (by decide)
  exact h.trans (by decide)

/-- C10: `author_list_to_author` on data without an `author_list` key
returns the empty string before any configuration lookup, so no
configuration error is raised even when both author settings are
unset. -/
theorem author_join_absent_list_ignores_config (cfg : Config) (data : PyDict)
    (h : data "author_list" = none) :
    author_list_to_author cfg data = .ok "" := by
  simp [author_list_to_author, h]

/-- Witness for C10 with both author settings unset. -/
theorem author_join_absent_list_ignores_config_witness :
    author_list_to_author (Config.mk none none) emptyData = .ok "" :=
  author_join_absent_list_ignores_config (Config.mk none none) emptyData rfl

/-- C6 (amended): `dump` renders one `key: value` line per field, lines
sorted by key, with the key-plus-colon field left-padded to
`(L / 4 + 2) * 4 - 1` characters where `L` is the longest key length —
not to the next multiple of 4 above `L`; on the claim's own example
this yields `"title:     Hello World"` with five spaces. -/
theorem dump_pads_key_field (k : String) (v : PyVal) :
    dump [(k, v)] = some (padTo (k ++ ":") ((k.length / 4 + 2) * 4 - 1) ++ pyStr v)
    ∧ dump [("title", PyVal.str "Hello World")] = some "title:     Hello World"
    ∧ dump [("year", PyVal.int 2024), ("author", PyVal.str "Knuth")]
        = some ("author:    Knuth" ++ "\n" ++ "year:      2024") := by
  refine ⟨?_, by decide, by decide⟩
  simp [dump, sortStable, insertLe, joinLines, Nat.zero_max]

/-- C6 counterexample: on the claim's own example the claimed rule — a
column width equal to the next multiple of 4 above the longest key
length, here 8 — renders `"title:  Hello World"` with two spaces,
which differs from what `dump` produces. -/
theorem dump_next_multiple_rule_false :
    dump [("title", PyVal.str "Hello World")] = some "title:     Hello World"
    ∧ dumpSpecWidth [("title", PyVal.str "Hello World")] = some "title:  Hello World"
    ∧ dump [("title", PyVal.str "Hello World")]
        ≠ dumpSpecWidth [("title", PyVal.str "Hello World")] := by
  decide

/-- Setting `reverse` only negates the priority component of the sort
key that `document_sort_key` builds. -/
theorem documentSortKey_true (key : String) (d : Doc) :
    documentSortKey key true d
      = SKey.mk (-(documentSortKey key false d).p)
          (documentSortKey key false d).date
          (documentSortKey key false d).iv
          (documentSortKey key false d).sv := rfl

/-- Tuple comparison of two priority-negated sort keys, flipped as the
descending sort of `reverse=True` flips it: ascending on the plain
priority and descending on the `(date, int, str)` tail. -/
theorem skeyLe_neg_p (K L : SKey) :
    skeyLe (SKey.mk (-L.p) L.date L.iv L.sv) (SKey.mk (-K.p) K.date K.iv K.sv)
      = if K.p < L.p then true else if L.p < K.p then false else skeyRestLe L K := by
  unfold skeyLe skeyRestLe
  simp [neg_lt_neg_iff]

/-- C1 (amended): with `reverse=True` the negated priority ordinal and
the reversed final sort cancel on the priority component and compose on
the others, so the result keeps the category grouping
(Date < Int < Other < Missing, missing keys still last) that
`reverse=False` produces, and instead reverses the within-category
order of the `date_value`/`int_value`/`string_value` components. -/
theorem sort_reverse_keeps_grouping (docs : List Doc) (key : String) :
    sortDocs docs key true = sortStable (leReverseActual key) docs := by
  show sortStable (fun a b =>
      skeyLe (documentSortKey key true b) (documentSortKey key true a)) docs = _
  congr 1
  funext a b
  rw [documentSortKey_true key a, documentSortKey_true key b, skeyLe_neg_p]
  rfl

/-- C1 counterexample: an Int-priority document and a Missing-priority
document keep their grouping under `reverse=True` (the claim predicts
the grouping reverses), while two same-category documents swap (the
claim predicts the within-category order is preserved). -/
theorem sort_reverse_claim_counterexample :
    sortDocs [[("x", PyVal.str "1")], []] "x" false
        = [[("x", PyVal.str "1")], []]
    ∧ sortDocs [[("x", PyVal.str "1")], []] "x" true
        = [[("x", PyVal.str "1")], []]
    ∧ ([[("x", PyVal.str "1")], []] : List Doc) ≠ [[], [("x", PyVal.str "1")]]
    ∧ sortDocs [[("x", PyVal.str "b")], [("x", PyVal.str "a")]] "x" false
        = [[("x", PyVal.str "a")], [("x", PyVal.str "b")]]
    ∧ sortDocs [[("x", PyVal.str "b")], [("x", PyVal.str "a")]] "x" true
        = [[("x", PyVal.str "b")], [("x", PyVal.str "a")]]
    ∧ ([[("x", PyVal.str "b")], [("x", PyVal.str "a")]] : List Doc)
        ≠ [[("x", PyVal.str "a")], [("x", PyVal.str "b")]] := by
  decide

end Papis
